import Mathlib

/-!
Verification development for the telegram downloader repository.

The definitions below are a shallow embedding of the Python sources:
`downloader.py` (channel resolution, per-message download, batching,
retry rounds), `retry_downloads.py` (skip-if-exists wrapper),
`batch_download_from_links.py` (link-list batching and the failed-links
ledger file) and `extract_media_links.py` (media-type detection).
Side effects are made explicit: the transport (telethon client) is a
parameter deciding which lookups/transfers succeed, and mutable object
state becomes explicit state records threaded through the functions.
-/

/-! ## Python string helpers -/

/-- Python truthiness of an optional string (`None` and `""` are falsy). -/
def pyTruthy : Option String → Bool
  | none => false
  | some s => !s.isEmpty

/-- Occurrence of a list as a contiguous sublist of another. -/
def listInfix (needle : List Char) : List Char → Bool
  | [] => needle.isEmpty
  | c :: cs => needle.isPrefixOf (c :: cs) || listInfix needle cs

/-- Python `needle in haystack` substring test. -/
def strContains (haystack needle : String) : Bool :=
  listInfix needle.toList haystack.toList

/-- Python `s.startswith(p)` (equivalent to `String.startsWith`,
stated over the character lists). -/
def pyStartsWith (s p : String) : Bool :=
  p.toList.isPrefixOf s.toList

/-- Python `s.lower()` (ASCII lowering, as `String.toLower`). -/
def pyLower (s : String) : String :=
  String.mk (s.toList.map Char.toLower)

/-- Splitting a character list at every occurrence of a separator
character, Python `str.split(sep)` for a one-character separator. -/
def splitOnCharAux (c : Char) : List Char → List Char → List (List Char)
  | [], acc => [acc.reverse]
  | x :: xs, acc =>
    if x == c then acc.reverse :: splitOnCharAux c xs []
    else splitOnCharAux c xs (x :: acc)

/-- Value of a decimal digit string. -/
def digitsToNat (cs : List Char) : Nat :=
  cs.foldl (fun acc c => 10 * acc + (c.toNat - 48)) 0

/-- Python `int(s)` for a plain digit string, `none` when `s` is empty
or has a non-digit (the behaviour of `String.toNat?`). -/
def pyToNat? (s : String) : Option Nat :=
  let cs := s.toList
  if !cs.isEmpty && cs.all Char.isDigit then some (digitsToNat cs) else none

/-- The digit character for `n < 10` (`'0'` has code 48). -/
def digitCh (n : Nat) : Char := Char.ofNat (48 + n)

/-- Decimal digits of a natural number, most significant first; `fuel`
bounds the recursion and `n + 1` always suffices. -/
def natDigitsAux : Nat → Nat → List Char
  | 0, _ => []
  | fuel + 1, n =>
    if n < 10 then [digitCh n]
    else natDigitsAux fuel (n / 10) ++ [digitCh (n % 10)]

/-- Decimal rendering of a natural number (Python `str(n)`). -/
def natToStr (n : Nat) : String := String.mk (natDigitsAux (n + 1) n)

/-- Decimal rendering of an integer (Python `str(i)`). -/
def intToStr : Int → String
  | .ofNat n => natToStr n
  | .negSucc n => "-" ++ natToStr (n + 1)

/-- Python `s[n:]`, dropping the first `n` characters. -/
def strDrop (s : String) (n : Nat) : String :=
  String.mk (s.toList.drop n)

/-- Index of the last occurrence of a character in a list, if any
(models Python `str.rfind` restricted to single characters). -/
def lastIdx (cs : List Char) (c : Char) : Option Nat :=
  ((List.range cs.length).filter (fun i => cs.getD i ' ' == c)).getLast?

/-- The extension part (dot included) of `os.path.splitext`: the suffix
from the last dot, provided that dot comes after the last `/` separator
and is not part of a leading run of dots of the final path component. -/
def splitextExt (p : String) : String :=
  let cs := p.toList
  match lastIdx cs '.' with
  | none => ""
  | some di =>
    let start : Nat := match lastIdx cs '/' with
      | none => 0
      | some si => si + 1
    if start ≤ di then
      if ((cs.drop start).take (di - start)).any (fun ch => ch ≠ '.') then
        String.mk (cs.drop di)
      else ""
    else ""

/-- The lowered extension without its dot, as computed by
`os.path.splitext(file_name)[1].lower()[1:]` in the sources. -/
def extOf (name : String) : String :=
  strDrop (pyLower (splitextExt name)) 1

/-- Models `mime_type.split('/')[1] if '/' in mime_type else dflt`. -/
def mimeSub (mime : String) (dflt : String) : String :=
  if mime.toList.contains '/' then
    ((splitOnCharAux '/' mime.toList []).map String.mk).getD 1 ""
  else dflt

/-! ## Media and message model

`Media` mirrors the telethon media objects the sources inspect: a
`MessageMediaDocument` carries a required `mime_type` string and the
first attribute that has a truthy `file_name` (if any); `photo` is a
`MessageMediaPhoto`; `otherMedia` is any other truthy `message.media`
value (e.g. a web-page preview), which the sources treat as media but
for which no file type is detected. -/

inductive Media where
  | document (mimeType : String) (fileName : Option String)
  | photo
  | otherMedia
deriving DecidableEq, Repr

/-- A message as far as the downloader inspects it: its id and its
(optional) media payload. -/
structure Msg where
  id : Nat
  media : Option Media
deriving DecidableEq, Repr

/-- The triple `(file_type, mime_type, file_name)` computed at the top
of `TelegramDownloader.download_file`. -/
structure DetectInfo where
  fileType : Option String
  mimeType : Option String
  fileName : Option String
deriving DecidableEq, Repr

/-- Type detection of `TelegramDownloader.download_file`
(downloader.py lines 176-205), line for line: a `video/*` mime gives a
first-pass `video`; a truthy filename attribute supplies `file_type`
only when none was set; when there is no filename and the mime string
is truthy, `file_type` is overwritten with the mime slash-subtype
(or `unknown` when the mime has no slash). -/
def detectInfo : Media → DetectInfo
  | .document mime fname =>
    let ft0 : Option String := if pyStartsWith mime "video/" then some "video" else none
    let ft1 : Option String :=
      match fname with
      | some n => if pyTruthy ft0 then ft0 else some (extOf n)
      | none => ft0
    let ft2 : Option String :=
      if fname.isNone && !mime.isEmpty then some (mimeSub mime "unknown") else ft1
    ⟨ft2, some mime, fname⟩
  | .photo => ⟨some "photo", none, none⟩
  | .otherMedia => ⟨none, none, none⟩

/-- The `should_download` decision of `TelegramDownloader.download_file`
(downloader.py lines 211-221): an empty filter accepts everything;
otherwise a truthy detected type is required, and it must be a member
of the filter, or `video` must be requested while the mime type is
truthy and starts with `video/`. -/
def should_download (fileTypes : List String) (ft mime : Option String) : Bool :=
  if fileTypes.isEmpty then true
  else if pyTruthy ft then
    if fileTypes.contains (ft.getD "") then true
    else fileTypes.contains "video" && pyTruthy mime && pyStartsWith (mime.getD "") "video/"
  else false

/-- Acceptance of one media payload by the type filter: detection
followed by the `should_download` decision. -/
def acceptMedia (fileTypes : List String) (med : Media) : Bool :=
  should_download fileTypes (detectInfo med).fileType (detectInfo med).mimeType

/-- A message reaches the transfer step of `download_file` iff it has
media and its detected type passes the filter. -/
def attemptedMsg (fileTypes : List String) (m : Msg) : Bool :=
  match m.media with
  | none => false
  | some med => acceptMedia fileTypes med

/-! ## Downloader state and `download_file`

`DLState` is the mutable state of a `TelegramDownloader` instance that
`download_file` touches: `downloaded_count`, `failed_count` and the
`failed_messages` list.  `succeeded_messages` instruments the `True`
return value of `download_file` (the code's success signal, gathered by
the callers): it records, in processing order, the messages for which
`download_file` returned `True`. -/

structure DLState where
  downloaded_count : Nat
  failed_count : Nat
  failed_messages : List Msg
  succeeded_messages : List Msg
deriving DecidableEq, Repr

/-- The zeroed state set up by `TelegramDownloader.__init__`. -/
def initDL : DLState := ⟨0, 0, [], []⟩

/-- One call of `TelegramDownloader.download_file` (downloader.py lines
171-281).  `transferOk` is the outcome of the transport's
`download_media` call for this attempt (`false` = the call raised).
Returns the boolean result together with the updated state: a message
without media, or one filtered out, changes nothing and returns
`False`; a successful transfer increments `downloaded_count` and
returns `True`; a raising transfer increments `failed_count` and
appends the message to `failed_messages`. -/
def download_file (fileTypes : List String) (transferOk : Bool) (m : Msg)
    (st : DLState) : Bool × DLState :=
  match m.media with
  | none => (false, st)
  | some med =>
    if acceptMedia fileTypes med then
      if transferOk then
        (true, { st with
          downloaded_count := st.downloaded_count + 1,
          succeeded_messages := st.succeeded_messages ++ [m] })
      else
        (false, { st with
          failed_count := st.failed_count + 1,
          failed_messages := st.failed_messages ++ [m] })
    else (false, st)

/-! ## Batching and the channel run

`TelegramDownloader.download_from_channel` (downloader.py lines
283-318) filters the enumerated messages to those with media, slices
them into `total_batches = ceil(n / batch_size)` consecutive slices
`media_messages[k*batch_size : k*batch_size + batch_size]`, and awaits
each batch's `download_file` tasks before starting the next.  The
concurrent `asyncio.gather` of a batch is modelled as a fold in task
order: each task's effect on the ledgers is an independent append, so
the final ledgers contain the same entries. -/

/-- The batch slices computed by `download_from_channel`: batch `k` is
`media_messages[k*bs : k*bs + bs]`, for `k` below the ceiling of
`n / bs`. -/
def download_batches (msgs : List Msg) (bs : Nat) : List (List Msg) :=
  (List.range ((msgs.length + bs - 1) / bs)).map
    (fun k => (msgs.drop (k * bs)).take bs)

/-- The media filter of `download_from_channel`:
`[msg for msg in messages if msg.media]`. -/
def mediaMessages (msgs : List Msg) : List Msg :=
  msgs.filter (fun m => m.media.isSome)

/-- Process one message inside a batch: `download_file` keeping only the
state (the boolean results of a channel run are not reused).
`outcome m` is whether the transport transfer for `m` succeeds in this
run. -/
def channelStep (fileTypes : List String) (outcome : Msg → Bool)
    (st : DLState) (m : Msg) : DLState :=
  (download_file fileTypes (outcome m) m st).2

/-- `TelegramDownloader.download_from_channel`: filter to media
messages, batch them, and process every batch in order. -/
def download_from_channel (fileTypes : List String) (outcome : Msg → Bool)
    (msgs : List Msg) (bs : Nat) (st : DLState) : DLState :=
  (download_batches (mediaMessages msgs) bs).foldl
    (fun st batch => batch.foldl (channelStep fileTypes outcome) st) st

/-- The candidate set the run actually attempts to transfer: the
media-bearing messages that pass the type filter. -/
def filteredCandidates (fileTypes : List String) (msgs : List Msg) : List Msg :=
  (mediaMessages msgs).filter (attemptedMsg fileTypes)

/-! ## Structural lemmas about batching -/

/-- Batching an empty candidate list yields no batches. -/
lemma download_batches_nil (bs : Nat) : download_batches [] bs = [] := by
  unfold download_batches
  rcases Nat.eq_zero_or_pos bs with hbs | hbs
  · subst hbs; rfl
  · have : (List.length ([] : List Msg) + bs - 1) / bs = 0 := by
      simp only [List.length_nil, Nat.zero_add]
      exact Nat.div_eq_of_lt (Nat.sub_lt hbs Nat.one_pos)
    rw [this]; rfl

/-- Unfolding step of the batch slicing: for a nonempty candidate list
the first batch is `take bs` and the remaining batches are the batches
of `drop bs`. -/
lemma download_batches_cons (bs : Nat) (h : 0 < bs) (l : List Msg) (hl : l ≠ []) :
    download_batches l bs = l.take bs :: download_batches (l.drop bs) bs := by
  have hn : 0 < l.length := List.length_pos.mpr hl
  have hB : (l.length + bs - 1) / bs = ((l.drop bs).length + bs - 1) / bs + 1 := by
    rw [List.length_drop]
    rcases Nat.le_total l.length bs with hle | hge
    · have h1 : l.length - bs = 0 := Nat.sub_eq_zero_of_le hle
      rw [h1]
      have h2 : (0 + bs - 1) / bs = 0 := by
        simp only [Nat.zero_add]
        exact Nat.div_eq_of_lt (Nat.sub_lt h Nat.one_pos)
      rw [h2]
      exact Nat.div_eq_of_lt_le (by omega) (by omega)
    · have h3 : l.length - bs + bs - 1 = l.length - 1 := by omega
      have h4 : l.length + bs - 1 = (l.length - 1) + bs := by omega
      rw [h3, h4, Nat.add_div_right _ h]
  unfold download_batches
  rw [hB, List.range_succ_eq_map, List.map_cons, List.map_map]
  congr 1
  · norm_num
  · apply List.map_congr_left
    intro k _
    simp only [Function.comp_apply]
    have h5 : Nat.succ k * bs = k * bs + bs := Nat.succ_mul k bs
    rw [h5, Nat.add_comm (k * bs) bs, ← List.drop_drop]

/-- The batches concatenate, in order, back to the candidate list. -/
lemma download_batches_join (bs : Nat) (h : 0 < bs) (l : List Msg) :
    (download_batches l bs).flatten = l := by
  have key : ∀ (n : Nat) (l : List Msg), l.length ≤ n →
      (download_batches l bs).flatten = l := by
    intro n
    induction n with
    | zero =>
      intro l hl
      have : l = [] := List.eq_nil_of_length_eq_zero (Nat.le_zero.mp hl)
      subst this
      rw [download_batches_nil]; rfl
    | succ n ih =>
      intro l hl
      rcases eq_or_ne l [] with rfl | hne
      · rw [download_batches_nil]; rfl
      · rw [download_batches_cons bs h l hne, List.flatten_cons,
            ih (l.drop bs) (by rw [List.length_drop]; omega),
            List.take_append_drop]
  exact key l.length l le_rfl

/-- Every batch except possibly the last has exactly `bs` elements. -/
lemma download_batches_getD_length (bs : Nat) (h : 0 < bs) (l : List Msg) (i : Nat)
    (hi : i + 1 < (download_batches l bs).length) :
    ((download_batches l bs).getD i []).length = bs := by
  unfold download_batches at hi ⊢
  rw [List.length_map, List.length_range] at hi
  have hiB : i < (l.length + bs - 1) / bs := by omega
  have hgd : ((List.range ((l.length + bs - 1) / bs)).map
      (fun k => (l.drop (k * bs)).take bs)).getD i [] = (l.drop (i * bs)).take bs := by
    rw [List.getD_eq_getElem?_getD, List.getElem?_map, List.getElem?_range hiB]
    rfl
  rw [hgd, List.length_take, List.length_drop]
  have h2 : i + 2 ≤ (l.length + bs - 1) / bs := by omega
  have h3 : (i + 2) * bs ≤ l.length + bs - 1 :=
    (Nat.le_div_iff_mul_le h).mp h2
  have h4 : (i + 2) * bs = (i + 1) * bs + bs := by ring
  have h5 : (i + 1) * bs = i * bs + bs := by ring
  omega

/-- Every batch has at most `bs` elements and is nonempty. -/
lemma download_batches_mem (bs : Nat) (h : 0 < bs) (l : List Msg) (b : List Msg)
    (hb : b ∈ download_batches l bs) : b.length ≤ bs ∧ b ≠ [] := by
  unfold download_batches at hb
  rw [List.mem_map] at hb
  obtain ⟨k, hk, rfl⟩ := hb
  rw [List.mem_range] at hk
  constructor
  · exact le_trans (List.length_take_le _ _) le_rfl
  · have h1 : k + 1 ≤ (l.length + bs - 1) / bs := hk
    have h2 : (k + 1) * bs ≤ l.length + bs - 1 := (Nat.le_div_iff_mul_le h).mp h1
    have h3 : (k + 1) * bs = k * bs + bs := by ring
    have h4 : k * bs < l.length := by omega
    have h5 : 0 < (l.drop (k * bs)).length := by rw [List.length_drop]; omega
    intro hcon
    have h6 : ((l.drop (k * bs)).take bs).length = 0 := by rw [hcon]; rfl
    rw [List.length_take, List.length_drop] at h6
    omega

/-- Folding batch-by-batch is folding over the concatenation of the
batches. -/
lemma foldl_batches_eq_foldl_flatten {α β : Type} (f : β → α → β) :
    ∀ (bss : List (List α)) (st : β),
      bss.foldl (fun s b => b.foldl f s) st = bss.flatten.foldl f st := by
  intro bss
  induction bss with
  | nil => intro st; rfl
  | cons b bss ih =>
    intro st
    rw [List.flatten_cons, List.foldl_append, List.foldl_cons, ih]

/-- One `channelStep` written as a conditional state update. -/
lemma channelStep_eq (fileTypes : List String) (outcome : Msg → Bool)
    (st : DLState) (m : Msg) :
    channelStep fileTypes outcome st m =
      if attemptedMsg fileTypes m then
        if outcome m then
          { st with downloaded_count := st.downloaded_count + 1,
                    succeeded_messages := st.succeeded_messages ++ [m] }
        else
          { st with failed_count := st.failed_count + 1,
                    failed_messages := st.failed_messages ++ [m] }
      else st := by
  unfold channelStep download_file attemptedMsg
  cases hm : m.media with
  | none => simp
  | some med =>
    by_cases ha : acceptMedia fileTypes med
    · cases houtcome : outcome m <;> simp [ha]
    · simp [ha]

/-- Closed form of a sequential pass of `download_file` over a message
list: counters grow by the number of accepted successes/failures, and
the ledgers are extended by exactly the accepted messages, split by
their own transfer outcome. -/
lemma channel_foldl_spec (fileTypes : List String) (outcome : Msg → Bool) :
    ∀ (msgs : List Msg) (st : DLState),
      msgs.foldl (channelStep fileTypes outcome) st =
        { downloaded_count := st.downloaded_count +
            (msgs.filter (fun m => attemptedMsg fileTypes m && outcome m)).length,
          failed_count := st.failed_count +
            (msgs.filter (fun m => attemptedMsg fileTypes m && !outcome m)).length,
          failed_messages := st.failed_messages ++
            msgs.filter (fun m => attemptedMsg fileTypes m && !outcome m),
          succeeded_messages := st.succeeded_messages ++
            msgs.filter (fun m => attemptedMsg fileTypes m && outcome m) } := by
  intro msgs
  induction msgs with
  | nil => intro st; simp
  | cons m ms ih =>
    intro st
    rw [List.foldl_cons, channelStep_eq, ih]
    by_cases ha : attemptedMsg fileTypes m
    · cases houtcome : outcome m <;>
        simp [List.filter_cons, ha, houtcome, List.append_assoc] <;> omega
    · simp [List.filter_cons, ha]

/-- Closed form of `download_from_channel` from the initial instance
state: the final ledgers are the accepted media messages split by their
own transfer outcome. -/
lemma download_from_channel_spec (fileTypes : List String) (outcome : Msg → Bool)
    (msgs : List Msg) (bs : Nat) (h : 0 < bs) :
    download_from_channel fileTypes outcome msgs bs initDL =
      { downloaded_count :=
          ((mediaMessages msgs).filter (fun m => attemptedMsg fileTypes m && outcome m)).length,
        failed_count :=
          ((mediaMessages msgs).filter (fun m => attemptedMsg fileTypes m && !outcome m)).length,
        failed_messages :=
          (mediaMessages msgs).filter (fun m => attemptedMsg fileTypes m && !outcome m),
        succeeded_messages :=
          (mediaMessages msgs).filter (fun m => attemptedMsg fileTypes m && outcome m) } := by
  unfold download_from_channel
  rw [foldl_batches_eq_foldl_flatten, download_batches_join bs h, channel_foldl_spec]
  simp [initDL]

/-! ## Retry sessions

`TelegramDownloader.retry_failed_downloads` (downloader.py lines
430-481) copies `failed_messages`, clears the list and zeroes
`failed_count`, then runs up to `max_retries` rounds; each round calls
`download_file` on every still-failing message (so every failing
attempt increments `failed_count` and appends to `failed_messages`
again), keeps the messages whose result was `False`, and stops early
when none remain.  `roundOutcome round m` is the transport outcome of
the transfer of `m` during round `round` (rounds are numbered from
1, as in the Python `range(1, max_retries + 1)` loop). -/

/-- One retry round: `download_file` on every message, collecting the
boolean results in task order (the `asyncio.gather` result list). -/
def retryRound (fileTypes : List String) (outcome : Msg → Bool)
    (msgs : List Msg) (st : DLState) : DLState × List Bool :=
  msgs.foldl
    (fun acc m =>
      let r := download_file fileTypes (outcome m) m acc.1
      (r.2, acc.2 ++ [r.1]))
    (st, [])

/-- The round loop of `retry_failed_downloads`: `fuel` is the number of
remaining iterations of `for attempt in range(1, max_retries + 1)`. -/
def retryLoop (fileTypes : List String) (roundOutcome : Nat → Msg → Bool) :
    Nat → Nat → List Msg → DLState → DLState
  | 0, _, _, st => st
  | fuel + 1, round, msgs, st =>
    if msgs.isEmpty then st
    else
      let r := retryRound fileTypes (roundOutcome round) msgs st
      let stillFailed := ((msgs.zip r.2).filter (fun p => !p.2)).map (fun p => p.1)
      if stillFailed.isEmpty then r.1
      else retryLoop fileTypes roundOutcome fuel (round + 1) stillFailed r.1

/-- `TelegramDownloader.retry_failed_downloads`: on a state with no
failed messages it returns unchanged; otherwise it clears the failure
ledger, zeroes `failed_count` and runs the retry rounds on the copied
list. -/
def retry_failed_downloads (fileTypes : List String)
    (roundOutcome : Nat → Msg → Bool) (maxRetries : Nat) (st : DLState) : DLState :=
  if st.failed_messages.isEmpty then st
  else
    retryLoop fileTypes roundOutcome maxRetries 1 st.failed_messages
      { st with failed_messages := [], failed_count := 0 }

/-- A retry round on a single accepted media message, written out. -/
lemma retryRound_singleton (fileTypes : List String) (outcome : Msg → Bool)
    (m : Msg) (st : DLState) (med : Media) (hm : m.media = some med)
    (ha : acceptMedia fileTypes med = true) :
    retryRound fileTypes outcome [m] st =
      (if outcome m then
        ({ st with downloaded_count := st.downloaded_count + 1,
                   succeeded_messages := st.succeeded_messages ++ [m] }, [true])
       else
        ({ st with failed_count := st.failed_count + 1,
                   failed_messages := st.failed_messages ++ [m] }, [false])) := by
  unfold retryRound download_file
  cases houtcome : outcome m <;> simp [hm, ha, houtcome]

/-- Behaviour of the retry loop on one message that keeps failing for
`k` rounds starting at `round` and then succeeds: `failed_count` picks
up one unit per failing round, `failed_messages` accumulates one stale
copy of the message per failing round, and the message is downloaded
once. -/
lemma retryLoop_fail_k_then_succeed (fileTypes : List String)
    (roundOutcome : Nat → Msg → Bool) (m : Msg) (med : Media)
    (hm : m.media = some med) (ha : acceptMedia fileTypes med = true) :
    ∀ (k fuel round : Nat) (st : DLState), k < fuel →
      (∀ j, round ≤ j → j < round + k → roundOutcome j m = false) →
      roundOutcome (round + k) m = true →
      retryLoop fileTypes roundOutcome fuel round [m] st =
        { st with
          downloaded_count := st.downloaded_count + 1,
          failed_count := st.failed_count + k,
          failed_messages := st.failed_messages ++ List.replicate k m,
          succeeded_messages := st.succeeded_messages ++ [m] } := by
  intro k
  induction k with
  | zero =>
    intro fuel round st hfuel _ hsucc
    obtain ⟨fuel', rfl⟩ : ∃ fuel', fuel = fuel' + 1 :=
      ⟨fuel - 1, by omega⟩
    rw [Nat.add_zero] at hsucc
    unfold retryLoop
    rw [retryRound_singleton fileTypes _ m st med hm ha]
    simp [hsucc]
  | succ k ih =>
    intro fuel round st hfuel hfail hsucc
    obtain ⟨fuel', rfl⟩ : ∃ fuel', fuel = fuel' + 1 :=
      ⟨fuel - 1, by omega⟩
    have hfirst : roundOutcome round m = false := hfail round le_rfl (by omega)
    unfold retryLoop
    rw [retryRound_singleton fileTypes _ m st med hm ha]
    simp only [hfirst, if_false, List.isEmpty_cons, Bool.false_eq_true,
      List.zip_cons_cons, List.zip_nil_right]
    have hz : (([(m, false)]).filter (fun p => !p.2)).map (fun p => p.1) = [m] := by
      simp
    rw [hz]
    simp only [List.isEmpty_cons]
    rw [ih fuel' (round + 1) _ (by omega)
      (by intro j hj1 hj2; exact hfail j (by omega) (by omega))
      (by have : round + 1 + k = round + (k + 1) := by omega
          rw [this]; exact hsucc)]
    simp [List.append_assoc, List.replicate_succ]
    omega

/-! ## Channel-reference resolution

`TelegramDownloader.get_entity` (downloader.py lines 127-158), bare
numeric branch: a candidate passing `channel_input.lstrip('-').isdigit()`
is parsed with `int(...)`.  If its decimal form starts with `-100` it is
looked up as that number; if it starts with a single dash, the code
first tries `PeerChannel(int(str(channel_id)[1:]))`, then the number
`int("-100" + str(channel_id)[1:])` (decimal string concatenation), and
finally falls through to a lookup of the original input string; any
other number is looked up as itself and then as the original string.
The transport is a predicate on lookup requests; resolution returns the
first request it accepts. -/

/-- A lookup request issued to the transport
(`client.get_entity(...)`). -/
inductive EntityRef where
  | peerChannel (n : Nat)
  | numericId (n : Int)
  | stringId (s : String)
deriving DecidableEq, Repr

/-- Python `int(...)` on an optionally dash-signed digit string. -/
def pyIntParse (s : String) : Option Int :=
  if pyStartsWith s "-" then
    (pyToNat? (strDrop s 1)).map (fun n => -(n : Int))
  else
    (pyToNat? s).map (fun n => (n : Int))

/-- Python `channel_input.lstrip('-').isdigit()`. -/
def isNumericCandidate (s : String) : Bool :=
  let t := s.toList.dropWhile (fun c => c == '-')
  !t.isEmpty && t.all Char.isDigit

/-- Python `int("-100" + strippedDigits)`: the `-100`-form computed by
decimal string concatenation. -/
def concat100 (strippedDigits : String) : Int :=
  -(((pyToNat? ("100" ++ strippedDigits)).getD 0) : Int)

/-- The ordered lookup requests issued by the bare-numeric branch of
`get_entity` (first accepted wins).  A candidate whose `int(...)` parse
raises (several leading dashes) aborts via the enclosing handler with
no lookup at all; a non-numeric candidate goes straight to the string
lookup. -/
def get_entity_attempts (channelInput : String) : List EntityRef :=
  if isNumericCandidate channelInput then
    match pyIntParse channelInput with
    | none => []
    | some cid =>
      let cs := intToStr cid
      if pyStartsWith cs "-100" then
        [.numericId cid, .stringId channelInput]
      else if pyStartsWith cs "-" then
        let stripped := strDrop cs 1
        [.peerChannel ((pyToNat? stripped).getD 0),
         .numericId (concat100 stripped),
         .stringId channelInput]
      else [.numericId cid, .stringId channelInput]
  else [.stringId channelInput]

/-- Resolution outcome of `get_entity` against a transport: the first
attempted lookup the transport accepts, `none` when every attempt
fails. -/
def resolveEntity (transport : EntityRef → Bool) (channelInput : String) :
    Option EntityRef :=
  (get_entity_attempts channelInput).find? transport

/-! ## Skip-if-exists wrapper of the resumed run

`download_file_if_not_exists` (retry_downloads.py lines 89-105)
replaces `download_file` during a resumed run: if any name in the
pre-built existing-file set contains `_{msg_id}_` or `_{msg_id}.` as a
substring, it reports success immediately; otherwise it delegates to
the original `download_file`. -/

/-- The filename test of the wrapper for one existing file name. -/
def idMatches (msgId : Nat) (existingFile : String) : Bool :=
  strContains existingFile ("_" ++ natToStr msgId ++ "_") ||
  strContains existingFile ("_" ++ natToStr msgId ++ ".")

/-- Result of one wrapper call: the boolean result, the state after the
call, and whether the original `download_file` (and hence possibly the
transport transfer) was invoked at all. -/
structure WrapResult where
  success : Bool
  state : DLState
  origInvoked : Bool
deriving DecidableEq, Repr

/-- `download_file_if_not_exists`: scan the existing-file index for the
message id; on a hit return `True` without touching the downloader,
otherwise run the real `download_file`. -/
def download_file_if_not_exists (existingFiles : List String)
    (fileTypes : List String) (transferOk : Bool) (m : Msg)
    (st : DLState) : WrapResult :=
  if existingFiles.any (idMatches m.id) then
    ⟨true, st, false⟩
  else
    let r := download_file fileTypes transferOk m st
    ⟨r.1, r.2, true⟩

/-! ## Link-list batch runs and the failed-links ledger

`BatchLinkDownloader` (batch_download_from_links.py): the link run
slices the pending list into batches of `batch_size`, processes every
link of a batch (`process_link` appends the link to
`successful_links` or `failed_links` and never lets an error escape),
optionally stops when the user declines to continue after every third
batch, and finally writes `failed_links_<timestamp>.txt` with one
failed link per line - exactly when `failed_links` is non-empty. -/

/-- The tracking state of a `BatchLinkDownloader`. -/
structure LinkState where
  successful_links : List String
  failed_links : List String
deriving DecidableEq, Repr

/-- `BatchLinkDownloader.process_link`: a successful
`download_from_link` appends to `successful_links`; a `False` result or
a raised error appends to `failed_links`. `linkOk` is whether the
download of this link succeeds. -/
def process_link (linkOk : Bool) (link : String) (st : LinkState) : Bool × LinkState :=
  if linkOk then
    (true, { st with successful_links := st.successful_links ++ [link] })
  else
    (false, { st with failed_links := st.failed_links ++ [link] })

/-- Output of `datetime.now().strftime("%Y%m%d_%H%M%S")` for an
in-range timestamp: four zero-padded year digits, two digits for each
other field, an underscore between the date and time halves.  This
models the external strftime call, which is not part of the sources. -/
def timestampStr (y mo d h mi s : Nat) : String :=
  String.mk [digitCh (y / 1000 % 10), digitCh (y / 100 % 10),
    digitCh (y / 10 % 10), digitCh (y % 10),
    digitCh (mo / 10 % 10), digitCh (mo % 10),
    digitCh (d / 10 % 10), digitCh (d % 10), '_',
    digitCh (h / 10 % 10), digitCh (h % 10),
    digitCh (mi / 10 % 10), digitCh (mi % 10),
    digitCh (s / 10 % 10), digitCh (s % 10)]

/-- The file written by `BatchLinkDownloader._save_failed_links`:
its name, and the sequence of chunks written to it (`f"{link}\n"` for
each failed link, in order). -/
structure LedgerFile where
  name : String
  chunks : List String
deriving DecidableEq, Repr

/-- `BatchLinkDownloader._save_failed_links` with the strftime output
as a parameter. -/
def save_failed_links (timestamp : String) (failed : List String) : LedgerFile :=
  ⟨"failed_links_" ++ timestamp ++ ".txt", failed.map (fun link => link ++ "\n")⟩

/-- The batch loop of `download_from_links_file`: take `bs` pending
links, process each, and continue unless the pending list is non-empty,
the batch number is a multiple of 3 and the user answers no
(`stopAfter batchNum`).  `fuel` bounds the iterations; `pending.length`
iterations always suffice when `bs > 0`. -/
def linkBatchLoop (linkOk : String → Bool) (stopAfter : Nat → Bool) (bs : Nat) :
    Nat → Nat → List String → LinkState → LinkState
  | 0, _, _, st => st
  | fuel + 1, batchNum, pending, st =>
    if pending.isEmpty then st
    else
      let batchNum1 := batchNum + 1
      let current := pending.take bs
      let rest := pending.drop bs
      let st1 := current.foldl (fun s link => (process_link (linkOk link) link s).2) st
      if !rest.isEmpty && batchNum1 % 3 == 0 && stopAfter batchNum1 then st1
      else linkBatchLoop linkOk stopAfter bs fuel batchNum1 rest st1

/-- Everything `download_from_links_file` leaves behind: the tracking
state and the optional failed-links ledger file. -/
structure LinksRunResult where
  state : LinkState
  ledgerWrite : Option LedgerFile
deriving DecidableEq, Repr

/-- `BatchLinkDownloader.download_from_links_file` on a fresh instance:
run the batch loop on the links, then write the ledger file exactly
when `failed_links` is non-empty. -/
def download_from_links_file (links : List String) (bs : Nat)
    (linkOk : String → Bool) (stopAfter : Nat → Bool)
    (timestamp : String) : LinksRunResult :=
  let st := linkBatchLoop linkOk stopAfter bs links.length 0 links ⟨[], []⟩
  ⟨st, if st.failed_links.isEmpty then none else some (save_failed_links timestamp st.failed_links)⟩

/-! ## Media-type detection of the link extractor

`MediaLinkExtractor._get_media_type` (extract_media_links.py lines
150-185): photo media is `photo`; for documents the lowered mime type
is checked first (`video/*` -> `video`, `application/pdf` -> `pdf`,
`audio/*` -> `audio`), then the first truthy filename attribute gives
either `document` (for office extensions) or the raw extension, and
otherwise the mime slash-subtype (default `document`) is used. -/

/-- The office-suite extensions normalized to `document` by the
extractor. -/
def officeExts : List String := ["doc", "docx", "xls", "xlsx", "ppt", "pptx"]

/-- `MediaLinkExtractor._get_media_type`. -/
def get_media_type (m : Msg) : String :=
  match m.media with
  | none => "text"
  | some .photo => "photo"
  | some (.document mimeRaw fname) =>
    let mime := pyLower mimeRaw
    if pyStartsWith mime "video/" then "video"
    else if mime == "application/pdf" then "pdf"
    else if pyStartsWith mime "audio/" then "audio"
    else
      match fname with
      | some n =>
        let ext := extOf n
        if officeExts.contains ext then "document" else ext
      | none => mimeSub mime "document"
  | some .otherMedia => "unknown"

/-! ## Claim theorems -/

/-- C8: for every candidate list and every `batchSize > 0`, the list is
partitioned into consecutive batches of exactly `batchSize` items with
only the last batch possibly shorter (every batch is nonempty and at
most `batchSize` long, every non-final batch exactly `batchSize` long),
batches concatenate back to the list in order, and 23 candidates with
`batchSize = 10` give exactly batches of sizes `[10, 10, 3]`. -/
theorem batching_partition (bs : Nat) (l : List Msg) (h : 0 < bs) :
    (download_batches l bs).flatten = l ∧
    (∀ i, i + 1 < (download_batches l bs).length →
      ((download_batches l bs).getD i []).length = bs) ∧
    (∀ b ∈ download_batches l bs, b.length ≤ bs ∧ b ≠ []) ∧
    (download_batches ((List.range 23).map (fun i => ⟨i, some .photo⟩)) 10).map
        List.length = [10, 10, 3] := by
  refine ⟨download_batches_join bs h l, ?_, ?_, by decide⟩
  · intro i hi
    exact download_batches_getD_length bs h l i hi
  · intro b hb
    exact download_batches_mem bs h l b hb

/-- Witness for C8 at `bs = 2` and a concrete three-message list. -/
theorem batching_partition_witness :
    (download_batches [⟨1, some .photo⟩, ⟨2, none⟩, ⟨3, some .photo⟩] 2).flatten =
        [⟨1, some .photo⟩, ⟨2, none⟩, ⟨3, some .photo⟩] ∧
    (∀ i, i + 1 <
        (download_batches [⟨1, some .photo⟩, ⟨2, none⟩, ⟨3, some .photo⟩] 2).length →
      ((download_batches [⟨1, some .photo⟩, ⟨2, none⟩, ⟨3, some .photo⟩] 2).getD i []).length
        = 2) ∧
    (∀ b ∈ download_batches [⟨1, some .photo⟩, ⟨2, none⟩, ⟨3, some .photo⟩] 2,
      b.length ≤ 2 ∧ b ≠ []) ∧
    (download_batches ((List.range 23).map (fun i => ⟨i, some .photo⟩)) 10).map
        List.length = [10, 10, 3] :=
  batching_partition 2 [⟨1, some .photo⟩, ⟨2, none⟩, ⟨3, some .photo⟩] (by decide)

/-- C3: for a channel run with positive batch size, a message is in the
succeeded or failed ledger exactly when it is a filtered candidate
(media-bearing and accepted by the type filter), and no message is in
both ledgers. -/
theorem run_ledgers_partition (fileTypes : List String) (outcome : Msg → Bool)
    (msgs : List Msg) (bs : Nat) (m : Msg) (h : 0 < bs) :
    ((m ∈ (download_from_channel fileTypes outcome msgs bs initDL).succeeded_messages ∨
      m ∈ (download_from_channel fileTypes outcome msgs bs initDL).failed_messages) ↔
      m ∈ filteredCandidates fileTypes msgs) ∧
    ¬(m ∈ (download_from_channel fileTypes outcome msgs bs initDL).succeeded_messages ∧
      m ∈ (download_from_channel fileTypes outcome msgs bs initDL).failed_messages) := by
  rw [download_from_channel_spec fileTypes outcome msgs bs h]
  unfold filteredCandidates
  simp only [List.mem_filter, Bool.and_eq_true, Bool.not_eq_true']
  constructor
  · constructor
    · rintro (⟨hmem, hatt, _⟩ | ⟨hmem, hatt, _⟩) <;> exact ⟨hmem, hatt⟩
    · rintro ⟨hmem, hatt⟩
      cases houtcome : outcome m
      · right; exact ⟨hmem, hatt, rfl⟩
      · left; exact ⟨hmem, hatt, rfl⟩
  · rintro ⟨⟨_, _, h1⟩, ⟨_, _, h2⟩⟩
    rw [h1] at h2
    exact absurd h2 (by decide)

/-- Witness for C3: a one-message channel, empty filter, failing
transfer, batch size 1. -/
theorem run_ledgers_partition_witness :
    (((⟨1, some .photo⟩ : Msg) ∈
        (download_from_channel [] (fun _ => false) [⟨1, some .photo⟩] 1 initDL).succeeded_messages ∨
      (⟨1, some .photo⟩ : Msg) ∈
        (download_from_channel [] (fun _ => false) [⟨1, some .photo⟩] 1 initDL).failed_messages) ↔
      (⟨1, some .photo⟩ : Msg) ∈ filteredCandidates [] [⟨1, some .photo⟩]) ∧
    ¬((⟨1, some .photo⟩ : Msg) ∈
        (download_from_channel [] (fun _ => false) [⟨1, some .photo⟩] 1 initDL).succeeded_messages ∧
      (⟨1, some .photo⟩ : Msg) ∈
        (download_from_channel [] (fun _ => false) [⟨1, some .photo⟩] 1 initDL).failed_messages) :=
  run_ledgers_partition [] (fun _ => false) [⟨1, some .photo⟩] 1 ⟨1, some .photo⟩ (by decide)

/-- C4: a transfer failure is recorded at the item boundary and for
that item only.  For any filtered candidate `m`, its presence in the
failed (resp. succeeded) ledger is exactly its own transfer outcome -
whatever happens to every other item - so a failing item never aborts
the batch or the run; and changing the outcome of the single item `m`
leaves the ledger record of every other message `mOther` unchanged. -/
theorem per_item_failure_isolation (fileTypes : List String) (msgs : List Msg)
    (bs : Nat) (o1 o2 : Msg → Bool) (m mOther : Msg) (hbs : 0 < bs)
    (hm : m ∈ filteredCandidates fileTypes msgs) (hne : mOther ≠ m)
    (hagree : ∀ x, x ≠ m → o1 x = o2 x) :
    ((m ∈ (download_from_channel fileTypes o1 msgs bs initDL).failed_messages ↔
        o1 m = false) ∧
     (m ∈ (download_from_channel fileTypes o1 msgs bs initDL).succeeded_messages ↔
        o1 m = true)) ∧
    ((mOther ∈ (download_from_channel fileTypes o1 msgs bs initDL).failed_messages ↔
      mOther ∈ (download_from_channel fileTypes o2 msgs bs initDL).failed_messages) ∧
     (mOther ∈ (download_from_channel fileTypes o1 msgs bs initDL).succeeded_messages ↔
      mOther ∈ (download_from_channel fileTypes o2 msgs bs initDL).succeeded_messages)) := by
  unfold filteredCandidates at hm
  rw [List.mem_filter] at hm
  obtain ⟨hmedia, hatt⟩ := hm
  rw [download_from_channel_spec fileTypes o1 msgs bs hbs,
      download_from_channel_spec fileTypes o2 msgs bs hbs]
  simp only [List.mem_filter, Bool.and_eq_true, Bool.not_eq_true']
  refine ⟨⟨?_, ?_⟩, ?_, ?_⟩
  · constructor
    · rintro ⟨_, _, hf⟩; exact hf
    · intro hf; exact ⟨hmedia, hatt, hf⟩
  · constructor
    · rintro ⟨_, _, hf⟩; exact hf
    · intro hf; exact ⟨hmedia, hatt, hf⟩
  · rw [hagree mOther hne]
  · rw [hagree mOther hne]

/-- Witness for C4: a two-message channel where only message 42's
outcome differs between the two transports. -/
theorem per_item_failure_isolation_witness :
    (((⟨42, some .photo⟩ : Msg) ∈
        (download_from_channel [] (fun x => decide (x ≠ ⟨42, some .photo⟩))
          [⟨42, some .photo⟩, ⟨43, some .photo⟩] 1 initDL).failed_messages ↔
        decide ((⟨42, some .photo⟩ : Msg) ≠ ⟨42, some .photo⟩) = false) ∧
     ((⟨42, some .photo⟩ : Msg) ∈
        (download_from_channel [] (fun x => decide (x ≠ ⟨42, some .photo⟩))
          [⟨42, some .photo⟩, ⟨43, some .photo⟩] 1 initDL).succeeded_messages ↔
        decide ((⟨42, some .photo⟩ : Msg) ≠ ⟨42, some .photo⟩) = true)) ∧
    (((⟨43, some .photo⟩ : Msg) ∈
        (download_from_channel [] (fun x => decide (x ≠ ⟨42, some .photo⟩))
          [⟨42, some .photo⟩, ⟨43, some .photo⟩] 1 initDL).failed_messages ↔
      (⟨43, some .photo⟩ : Msg) ∈
        (download_from_channel [] (fun _ => true)
          [⟨42, some .photo⟩, ⟨43, some .photo⟩] 1 initDL).failed_messages) ∧
     ((⟨43, some .photo⟩ : Msg) ∈
        (download_from_channel [] (fun x => decide (x ≠ ⟨42, some .photo⟩))
          [⟨42, some .photo⟩, ⟨43, some .photo⟩] 1 initDL).succeeded_messages ↔
      (⟨43, some .photo⟩ : Msg) ∈
        (download_from_channel [] (fun _ => true)
          [⟨42, some .photo⟩, ⟨43, some .photo⟩] 1 initDL).succeeded_messages)) :=
  per_item_failure_isolation [] [⟨42, some .photo⟩, ⟨43, some .photo⟩] 1
    (fun x => decide (x ≠ ⟨42, some .photo⟩)) (fun _ => true)
    ⟨42, some .photo⟩ ⟨43, some .photo⟩ (by decide) (by decide) (by decide)
    (fun x hx => by simp [hx])

/-- C5 counterexample: for the document item with MIME
`application/msword` and filename `file.doc`, the downloader's type
detection yields `doc`, not the office-normalized `document` the claim
requires of type detection. -/
theorem type_detection_office_counterexample :
    (detectInfo (.document "application/msword" (some "file.doc"))).fileType =
        some "doc" ∧
    some "doc" ≠ some "document" := by decide

/-- C5 amended: office extensions normalize to `document` only in the
link extractor's detection.  For a document whose MIME is not in the
video/pdf/audio classes and whose filename carries an office extension,
the downloader's `download_file` detection returns the raw extension
itself, while the extractor's `_get_media_type` returns `document`
(the extractor's MIME classes, not just photo/video, take precedence
over the filename). -/
theorem type_detection_office_split (mime name : String) (i : Nat)
    (hv : pyStartsWith mime "video/" = false)
    (hlv : pyStartsWith (pyLower mime) "video/" = false)
    (hlp : (pyLower mime == "application/pdf") = false)
    (hla : pyStartsWith (pyLower mime) "audio/" = false)
    (hoff : officeExts.contains (extOf name) = true) :
    (detectInfo (.document mime (some name))).fileType = some (extOf name) ∧
    get_media_type ⟨i, some (.document mime (some name))⟩ = "document" := by
  constructor
  · unfold detectInfo
    simp [hv, pyTruthy]
  · unfold get_media_type
    have hmem : extOf name ∈ officeExts := by simpa using hoff
    simp [hlv, hlp, hla, hmem]

/-- Witness for C5's amended theorem at the counterexample input. -/
theorem type_detection_office_split_witness :
    (detectInfo (.document "application/msword" (some "file.doc"))).fileType =
        some (extOf "file.doc") ∧
    get_media_type ⟨1, some (.document "application/msword" (some "file.doc"))⟩ =
        "document" :=
  type_detection_office_split "application/msword" "file.doc" 1
    (by decide) (by decide) (by decide) (by decide) (by decide)

/-- C6 counterexample: the item with MIME `video/` (empty subtype) and
no filename has a MIME type starting with `video/` while `video` is in
the filter, yet it is rejected, because its detected type is the empty
string, which is falsy. -/
theorem type_filter_video_counterexample :
    acceptMedia ["video"] (.document "video/" none) = false ∧
    (List.contains ["video"] "video" && pyStartsWith "video/" "video/") = true := by
  decide

/-- C6 amended: the empty filter accepts everything; a non-empty filter
accepts an item exactly when its detected type is truthy (present and
non-empty) and either is a literal member of the filter or `video` is
requested while the MIME type is truthy and starts with `video/`.  In
particular the item with MIME `video/mp4` and no filename detects as
`mp4` and is accepted both under the filter `{video}` (via the MIME
special case) and under `{mp4}` (as a literal member). -/
theorem type_filter_semantics (fileTypes : List String) (med : Media) :
    (acceptMedia fileTypes med =
      (fileTypes.isEmpty ||
        (pyTruthy (detectInfo med).fileType &&
          (fileTypes.contains ((detectInfo med).fileType.getD "") ||
           (fileTypes.contains "video" && pyTruthy (detectInfo med).mimeType &&
             pyStartsWith ((detectInfo med).mimeType.getD "") "video/"))))) ∧
    (detectInfo (.document "video/mp4" none)).fileType = some "mp4" ∧
    acceptMedia ["video"] (.document "video/mp4" none) = true ∧
    acceptMedia ["mp4"] (.document "video/mp4" none) = true := by
  refine ⟨?_, by decide, by decide, by decide⟩
  unfold acceptMedia should_download
  by_cases h1 : fileTypes.isEmpty
  · simp [h1]
  · by_cases h2 : pyTruthy (detectInfo med).fileType
    · by_cases h3 : fileTypes.contains ((detectInfo med).fileType.getD "")
      · simp [h1, h2, h3]
      · simp [h1, h2, h3]
    · simp [h1, h2]

/-- C7: during a resumed run, a message whose id appears in the
existing-file index inside a name containing `_{messageId}_` or
`_{messageId}.` gets an immediate `True` result, the downloader state
is untouched, and the original `download_file` (hence the transport
transfer) is never invoked. -/
theorem skip_existing_success (existingFiles fileTypes : List String)
    (transferOk : Bool) (m : Msg) (st : DLState)
    (h : ∃ f ∈ existingFiles,
      (strContains f ("_" ++ natToStr m.id ++ "_") ||
       strContains f ("_" ++ natToStr m.id ++ ".")) = true) :
    download_file_if_not_exists existingFiles fileTypes transferOk m st =
      ⟨true, st, false⟩ := by
  unfold download_file_if_not_exists
  have hany : existingFiles.any (idMatches m.id) = true := by
    rw [List.any_eq_true]
    obtain ⟨f, hf, hmatch⟩ := h
    exact ⟨f, hf, hmatch⟩
  rw [hany]
  rfl

/-- Witness for C7: message 42 against an index holding a previously
materialized file for message 42. -/
theorem skip_existing_success_witness :
    download_file_if_not_exists ["20250101_120000_42_video.mp4"] [] false
        ⟨42, some .photo⟩ initDL = ⟨true, initDL, false⟩ :=
  skip_existing_success ["20250101_120000_42_video.mp4"] [] false
    ⟨42, some .photo⟩ initDL (by decide)

/-- C2, evaluated at the failing input: one message that failed in the
original run, retried with `max_retries = 3` against a transport that
fails it in rounds 1 and 2 and succeeds in round 3.  The message is
downloaded (moved to succeeded) by round 3, but the session ends with
`failed_count = 2` and two stale copies in `failed_messages`, not the
`failed_count == 0` the claim requires: `download_file` increments the
failure counters on every failed attempt and the retry loop never
resets them between rounds. -/
theorem retry_session_stale_failed_count :
    retry_failed_downloads [] (fun round _ => round == 3) 3
        ⟨0, 1, [⟨7, some (.document "video/mp4" none)⟩], []⟩ =
      ⟨1, 2,
        [⟨7, some (.document "video/mp4" none)⟩, ⟨7, some (.document "video/mp4" none)⟩],
        [⟨7, some (.document "video/mp4" none)⟩]⟩ := by
  decide

/-- C10: in a retry session with one pending failed media message that
fails in rounds `1..k` and succeeds in round `k + 1 ≤ maxRetries`, the
session ends with the message downloaded once, yet with `failed_count`
equal to `k` and `k` stale copies of the message in `failed_messages`:
failed attempts are counted per attempt and never deduplicated or
reset, so both can be non-zero although every item ultimately
succeeded. -/
theorem retry_failed_count_not_deduplicated (fileTypes : List String)
    (m : Msg) (med : Media) (k maxRetries : Nat) (st : DLState)
    (hm : m.media = some med) (ha : acceptMedia fileTypes med = true)
    (hfailed : st.failed_messages = [m]) (hk : k < maxRetries) :
    retry_failed_downloads fileTypes (fun round _ => decide (k < round)) maxRetries st =
      { downloaded_count := st.downloaded_count + 1,
        failed_count := k,
        failed_messages := List.replicate k m,
        succeeded_messages := st.succeeded_messages ++ [m] } := by
  unfold retry_failed_downloads
  rw [hfailed]
  simp only [List.isEmpty_cons, Bool.false_eq_true, if_false]
  rw [retryLoop_fail_k_then_succeed fileTypes (fun round _ => decide (k < round))
        m med hm ha k maxRetries 1 _ hk
        (by intro j h1 h2; simp only [decide_eq_false_iff_not]; omega)
        (by simp)]
  simp

/-- Witness for C10 at `k = 2`, `maxRetries = 3` and a state carrying
earlier counters. -/
theorem retry_failed_count_not_deduplicated_witness :
    retry_failed_downloads []
        (fun round _ => decide (2 < round)) 3
        ⟨5, 9, [⟨7, some (.document "video/mp4" none)⟩], [⟨1, some .photo⟩]⟩ =
      { downloaded_count := 5 + 1,
        failed_count := 2,
        failed_messages := List.replicate 2 ⟨7, some (.document "video/mp4" none)⟩,
        succeeded_messages := [⟨1, some .photo⟩] ++ [⟨7, some (.document "video/mp4" none)⟩] } :=
  retry_failed_count_not_deduplicated [] ⟨7, some (.document "video/mp4" none)⟩
    (.document "video/mp4" none) 2 3
    ⟨5, 9, [⟨7, some (.document "video/mp4" none)⟩], [⟨1, some .photo⟩]⟩
    rfl (by decide) rfl (by decide)

/-- C1 counterexample: for the bare single-dash candidate `-123`,
resolution fails both against a transport accepting only the value as
given (`-123`, which the claim says is tried first) and against a
transport accepting only the `-100`-prefixed form computed as
`-10^12 - strippedId` (`-1000000000123`, against which the claim says
resolution still succeeds): the code instead tries
`PeerChannel(123)`, then `int("-100" + "123") = -100123`, then the
string `"-123"`. -/
theorem resolver_order_counterexample :
    resolveEntity (fun r => r == .numericId (-123)) "-123" = none ∧
    resolveEntity (fun r => r == .numericId (-1000000000123)) "-123" = none := by
  decide

/-- C1 amended: for a numeric candidate parsing to a negative id whose
decimal form starts with a single dash (not `-100`), resolution tries,
in order: (i) the dash-stripped value as an internal peer id
(`PeerChannel`), (ii) the `-100`-prefixed numeric form computed by
decimal string concatenation (`int("-100" + stripped)`), (iii) the
original input string as a general identifier lookup - stopping at the
first encoding the transport accepts; in particular a bare single-dash
id against a transport that only accepts the concatenated `-100`
encoding resolves to it after the single failed `PeerChannel`
attempt. -/
theorem resolver_dash_fallback (s : String) (cid : Int)
    (transport : EntityRef → Bool)
    (hnum : isNumericCandidate s = true)
    (hparse : pyIntParse s = some cid)
    (hdash : pyStartsWith (intToStr cid) "-" = true)
    (hnot100 : pyStartsWith (intToStr cid) "-100" = false)
    (hpeer : transport (.peerChannel ((pyToNat? (strDrop (intToStr cid) 1)).getD 0)) = false)
    (h100 : transport (.numericId (concat100 (strDrop (intToStr cid) 1))) = true) :
    get_entity_attempts s =
      [.peerChannel ((pyToNat? (strDrop (intToStr cid) 1)).getD 0),
       .numericId (concat100 (strDrop (intToStr cid) 1)),
       .stringId s] ∧
    resolveEntity transport s =
      some (.numericId (concat100 (strDrop (intToStr cid) 1))) := by
  have hatt : get_entity_attempts s =
      [.peerChannel ((pyToNat? (strDrop (intToStr cid) 1)).getD 0),
       .numericId (concat100 (strDrop (intToStr cid) 1)),
       .stringId s] := by
    unfold get_entity_attempts
    rw [hnum, hparse]
    simp only [hdash, hnot100, Bool.false_eq_true, if_false, if_true]
  refine ⟨hatt, ?_⟩
  unfold resolveEntity
  rw [hatt]
  simp [List.find?, hpeer, h100]

/-- Witness for C1's amended theorem: the ten-digit id `-1234567890`,
for which the concatenated `-100` form coincides with
`-10^12 - 1234567890 = -1001234567890`, against a transport accepting
only that encoding. -/
theorem resolver_dash_fallback_witness :
    get_entity_attempts "-1234567890" =
      [.peerChannel ((pyToNat? (strDrop (intToStr (-1234567890)) 1)).getD 0),
       .numericId (concat100 (strDrop (intToStr (-1234567890)) 1)),
       .stringId "-1234567890"] ∧
    resolveEntity (fun r => r == .numericId (-1001234567890)) "-1234567890" =
      some (.numericId (concat100 (strDrop (intToStr (-1234567890)) 1))) :=
  resolver_dash_fallback "-1234567890" (-1234567890)
    (fun r => r == .numericId (-1001234567890))
    (by decide) (by decide) (by decide) (by decide) (by decide) (by decide)

/-- C9: for a link run with positive batch size, no ledger file is
written exactly when the run ends with an empty failed ledger; when one
is written it is named `failed_links_` + the `YYYYMMDD_HHMMSS`
timestamp + `.txt` and its written chunks are exactly the failed
locators, each followed by one newline, in ledger order; and the
timestamp has the eight-digits, underscore, six-digits shape. -/
theorem failed_links_ledger_write (links : List String) (bs : Nat)
    (linkOk : String → Bool) (stopAfter : Nat → Bool)
    (y mo d h mi s : Nat) (hbs : 0 < bs) :
    ((download_from_links_file links bs linkOk stopAfter
        (timestampStr y mo d h mi s)).ledgerWrite = none ↔
      (download_from_links_file links bs linkOk stopAfter
        (timestampStr y mo d h mi s)).state.failed_links = []) ∧
    ((download_from_links_file links bs linkOk stopAfter
        (timestampStr y mo d h mi s)).ledgerWrite =
      if (download_from_links_file links bs linkOk stopAfter
            (timestampStr y mo d h mi s)).state.failed_links.isEmpty then none
      else some
        ⟨"failed_links_" ++ timestampStr y mo d h mi s ++ ".txt",
         (download_from_links_file links bs linkOk stopAfter
            (timestampStr y mo d h mi s)).state.failed_links.map
           (fun link => link ++ "\n")⟩) ∧
    ((timestampStr y mo d h mi s).toList.map Char.isDigit =
      [true, true, true, true, true, true, true, true, false,
       true, true, true, true, true, true]) ∧
    (timestampStr y mo d h mi s).toList.getD 8 ' ' = '_' := by
  have hdig : ∀ k, (digitCh (k % 10)).isDigit = true := by
    intro k
    have h10 : k % 10 < 10 := Nat.mod_lt _ (by norm_num)
    have hall : ∀ j < 10, (digitCh j).isDigit = true := by decide
    exact hall _ h10
  refine ⟨?_, ?_, ?_, rfl⟩
  · unfold download_from_links_file
    by_cases he :
        (linkBatchLoop linkOk stopAfter bs links.length 0 links ⟨[], []⟩).failed_links.isEmpty
    · simp [he, List.isEmpty_iff.mp he]
    · simp only [he, Bool.false_eq_true, if_false]
      constructor
      · intro hcon; exact absurd hcon (by simp)
      · intro hcon
        rw [hcon] at he
        exact absurd rfl he
  · unfold download_from_links_file save_failed_links
    rfl
  · simp only [timestampStr, String.toList, List.map_cons, List.map_nil, hdig]
    rfl

/-- Witness for C9: a single failing link, batch size 1, and the
timestamp fields 2026-10-12 08:30:05. -/
theorem failed_links_ledger_write_witness :
    ((download_from_links_file ["a"] 1 (fun _ => false) (fun _ => false)
        (timestampStr 2026 10 12 8 30 5)).ledgerWrite = none ↔
      (download_from_links_file ["a"] 1 (fun _ => false) (fun _ => false)
        (timestampStr 2026 10 12 8 30 5)).state.failed_links = []) ∧
    ((download_from_links_file ["a"] 1 (fun _ => false) (fun _ => false)
        (timestampStr 2026 10 12 8 30 5)).ledgerWrite =
      if (download_from_links_file ["a"] 1 (fun _ => false) (fun _ => false)
            (timestampStr 2026 10 12 8 30 5)).state.failed_links.isEmpty then none
      else some
        ⟨"failed_links_" ++ timestampStr 2026 10 12 8 30 5 ++ ".txt",
         (download_from_links_file ["a"] 1 (fun _ => false) (fun _ => false)
            (timestampStr 2026 10 12 8 30 5)).state.failed_links.map
           (fun link => link ++ "\n")⟩) ∧
    ((timestampStr 2026 10 12 8 30 5).toList.map Char.isDigit =
      [true, true, true, true, true, true, true, true, false,
       true, true, true, true, true, true]) ∧
    (timestampStr 2026 10 12 8 30 5).toList.getD 8 ' ' = '_' :=
  failed_links_ledger_write ["a"] 1 (fun _ => false) (fun _ => false)
    2026 10 12 8 30 5 (by decide)
